import Mathlib

/-!
Shallow embedding of the EV charging assistant pipeline (app.py): the
station-ranking function `recommend_stations`, the fetch wrapper
`get_charging_stations`, the chat wrapper `chat_with_openai`, and the
context-building loop of `main`.  Station records are loosely-typed JSON
payloads; absence of a key at any nesting level is modelled with `Option`.
Python floats are modelled as rationals.
-/

namespace EVCharging

/-- A power-level descriptor attached to a connection (JSON key `Level`). -/
structure LevelInfo where
  Title : Option String
deriving DecidableEq

/-- One charging-connector entry of a station record. -/
structure Connection where
  Level : Option LevelInfo
deriving DecidableEq

/-- The nested `AddressInfo` object of a station record. -/
structure AddressInfo where
  Title : Option String
  Distance : Option ℚ
deriving DecidableEq

/-- The nested `StatusType` object of a station record. -/
structure StatusType where
  Title : Option String
  IsOperational : Option Bool
deriving DecidableEq

/-- A raw station record as returned by the directory service; every
field the pipeline touches may be absent. -/
structure StationRecord where
  AddressInfo : Option AddressInfo
  Connections : Option (List Connection)
  StatusType : Option StatusType
deriving DecidableEq

/-- Whether the first list is a leading segment of the second. -/
def charsStartWith : List Char → List Char → Bool
  | [], _ => true
  | _ :: _, [] => false
  | p :: ps, c :: cs => p == c && charsStartWith ps cs

/-- Whether the first list occurs as a contiguous run inside the second. -/
def charsContain (pat : List Char) : List Char → Bool
  | [] => pat.isEmpty
  | c :: cs => charsStartWith pat (c :: cs) || charsContain pat cs

/-- Python `'Fast' in str(...)`: case-sensitive substring containment. -/
def strContains (s pat : String) : Bool :=
  charsContain pat.toList s.toList

/-- `station.get('AddressInfo', {}).get('Distance', 999)`. -/
def distOf (station : StationRecord) : ℚ :=
  match station.AddressInfo with
  | none => 999
  | some a => a.Distance.getD 999

/-- The distance component of the score:
`if distance < 5: score += 10 elif distance < 10: score += 5`. -/
def distancePoints (station : StationRecord) : Nat :=
  if distOf station < 5 then 10 else if distOf station < 10 then 5 else 0

/-- Whether a connection has a power-level title containing `"Fast"`:
`level = conn.get('Level', {})` followed by
`if level and 'Fast' in str(level.get('Title', ''))`.  An absent `Level`
is falsy, so it never reaches the substring test. -/
def hasFast (conn : Connection) : Bool :=
  match conn.Level with
  | none => false
  | some lv => strContains (lv.Title.getD "") "Fast"

/-- Per-connection score contribution: `score += 8` when the test fires. -/
def connPoints (conn : Connection) : Nat :=
  if hasFast conn then 8 else 0

/-- `station.get('Connections', [])`. -/
def connectionsOf (station : StationRecord) : List Connection :=
  station.Connections.getD []

/-- The total charger-type component of the score: the loop
`for conn in connections: ... score += 8`. -/
def connectionPoints (station : StationRecord) : Nat :=
  ((connectionsOf station).map connPoints).sum

/-- Truthiness of `station.get('StatusType', {}).get('IsOperational')`. -/
def isOperationalOf (station : StationRecord) : Bool :=
  match station.StatusType with
  | none => false
  | some st => st.IsOperational.getD false

/-- The availability bonus: `if ...get('IsOperational'): score += 5`. -/
def availabilityPoints (station : StationRecord) : Nat :=
  if isOperationalOf station then 5 else 0

/-- The score accumulated for one station record (lines 52-70 of app.py). -/
def scoreStation (station : StationRecord) : Nat :=
  distancePoints station + connectionPoints station + availabilityPoints station

/-- One entry of the list built by `recommend_stations`:
`{'station': station, 'score': score, 'distance': distance}`. -/
structure ScoredStation where
  station : StationRecord
  score : Nat
  distance : ℚ
deriving DecidableEq

/-- The dict appended for each station record. -/
def scoreOne (station : StationRecord) : ScoredStation :=
  { station := station, score := scoreStation station, distance := distOf station }

/-- The ordering used by `sort(key=lambda x: x['score'], reverse=True)`:
descending by score. -/
def scoreGE (a b : ScoredStation) : Prop := b.score ≤ a.score

instance : DecidableRel scoreGE := fun a b => Nat.decLe b.score a.score

instance : IsTotal ScoredStation scoreGE := ⟨fun a b => Nat.le_total b.score a.score⟩

instance : IsTrans ScoredStation scoreGE := ⟨fun _ _ _ h1 h2 => Nat.le_trans h2 h1⟩

/-- `recommend_stations(stations, preferred_type="Fast")`: score every
record, then sort by score descending.  Python `list.sort` is a stable
sort, modelled by the stable `List.insertionSort`.  The `preferred_type`
argument appears in the source signature but is never read in the body. -/
def recommend_stations (stations : List StationRecord) (preferred_type : String) :
    List ScoredStation :=
  List.insertionSort scoreGE (stations.map scoreOne)

/-- `q` scaled by ten and rounded to the nearest integer, ties to even,
as IEEE float formatting does for `f"{x:.1f}"`.  Computed on the
numerator and denominator directly: the fraction `10 * num / den` has a
positive denominator, so `Int.fdiv` is its floor. -/
def roundTenths (q : ℚ) : ℤ :=
  let a : ℤ := 10 * q.num
  let b : ℤ := (q.den : ℤ)
  let f := Int.fdiv a b
  let twiceFrac := 2 * (a - f * b)
  if twiceFrac < b then f
  else if b < twiceFrac then f + 1
  else if f % 2 = 0 then f else f + 1

/-- Python `f"{x:.1f}"`: the value formatted with one decimal digit. -/
def fmt1 (q : ℚ) : String :=
  let n := roundTenths q
  let sign := if n < 0 then "-" else ""
  let m := n.natAbs
  sign ++ toString (m / 10) ++ "." ++ toString (m % 10)

/-- `addr.get('Title', 'Unknown')` with `addr = station.get('AddressInfo', {})`. -/
def titleOf (station : StationRecord) : String :=
  match station.AddressInfo with
  | none => "Unknown"
  | some a => a.Title.getD "Unknown"

/-- One line appended to the context:
`f"{i}. {addr.get('Title', 'Unknown')} - {item['distance']:.1f}km away\n"`. -/
def lineFor (i : Nat) (item : ScoredStation) : String :=
  toString i ++ ". " ++ titleOf item.station ++ " - " ++ fmt1 item.distance ++ "km away\n"

/-- The context string built in `main` (lines 149-156 of app.py): empty
when there are no recommendations, otherwise a header plus one line per
entry of `recommendations[:3]`, 1-indexed by `enumerate(top_stations, 1)`. -/
def buildContext (ranked : List ScoredStation) : String :=
  if ranked.isEmpty then ""
  else
    ((ranked.take 3).enumFrom 1).foldl (fun ctx p => ctx ++ lineFor p.1 p.2)
      "Top 3 recommended stations:\n"

/-- Modelled from the spec: the context as §4.3 and the C5 claim describe
it, consisting of exactly the min(topN, length) station lines and nothing
else (no header line).  Used only to compare against `buildContext`. -/
def buildContext_spec (ranked : List ScoredStation) : String :=
  if ranked.isEmpty then ""
  else ((ranked.take 3).enumFrom 1).foldl (fun ctx p => ctx ++ lineFor p.1 p.2) ""

/-- Outcome of the single `requests.get` call inside
`get_charging_stations`: either an exception (transport failure, timeout,
parse failure) or a completed HTTP response with a status code and, when
the body parses, its list of records. -/
inductive FetchOutcome where
  | exn (msg : String)
  | resp (status : Nat) (body : List StationRecord)
deriving DecidableEq

/-- `get_charging_stations`: returns the parsed body on status 200, `[]`
on any other status, and `[]` (after `st.error`) when an exception was
raised; it never propagates an error to the caller. -/
def get_charging_stations (outcome : FetchOutcome) : List StationRecord :=
  match outcome with
  | .exn _ => []
  | .resp status body => if status == 200 then body else []

/-- A chat message `{"role": ..., "content": ...}`. -/
structure ChatMessage where
  role : String
  content : String
deriving DecidableEq

/-- The `message` object of one choice of a completion response. -/
structure ChoiceMessage where
  content : String
deriving DecidableEq

/-- One element of `response.choices`. -/
structure ChatChoice where
  message : ChoiceMessage
deriving DecidableEq

/-- A completion response: `response.choices` is a list of choices. -/
structure ChatResponse where
  choices : List ChatChoice
deriving DecidableEq

/-- The request passed to `client.chat.completions.create`. -/
structure ChatRequest where
  model : String
  messages : List ChatMessage
  max_tokens : Nat
  temperature : ℚ
deriving DecidableEq

/-- The interpolated system prompt of `chat_with_openai`. -/
def systemPromptFor (context : String) : String :=
  "You are an EV Charging Assistant. Help users find charging stations and answer EV-related questions.\n        \nBe friendly, concise, and helpful. If station data is provided, reference it naturally.\n\nContext: " ++ context

/-- The exact request `chat_with_openai` constructs. -/
def requestFor (user_message context : String) : ChatRequest :=
  { model := "gpt-3.5-turbo"
    messages := [ { role := "system", content := systemPromptFor context },
                  { role := "user", content := user_message } ]
    max_tokens := 500
    temperature := 7/10 }

/-- `chat_with_openai(user_message, context="")`, parameterised by the
completion endpoint.  Any exception raised inside the `try` block is
caught and turned into the apology string; on success the code returns
`response.choices[0].message.content`, and an empty `choices` list makes
that indexing raise inside the same `try`, which is caught identically. -/
def chat_with_openai (call : ChatRequest → Except String ChatResponse)
    (user_message : String) (context : String) : String :=
  match call (requestFor user_message context) with
  | .error e => "Sorry, I encountered an error: " ++ e
  | .ok r =>
    match r.choices with
    | [] => "Sorry, I encountered an error: list index out of range"
    | c :: _ => c.message.content

/-! ## Concrete records used by witnesses and the counterexample -/

/-- A fully populated station: distance 3, one Fast connection, operational. -/
def exStationA : StationRecord :=
  { AddressInfo := some { Title := some "Alpha", Distance := some 3 },
    Connections := some [ { Level := some { Title := some "Level 3: Fast" } } ],
    StatusType := some { Title := some "Operational", IsOperational := some true } }

/-- A station record with every optional field absent. -/
def exStationEmpty : StationRecord :=
  { AddressInfo := none, Connections := none, StatusType := none }

/-- A connection whose `Level` key is absent. -/
def exConnNoLevel : Connection := { Level := none }

/-- A connection with a `Level` object but no `Title` key. -/
def exConnNoTitle : Connection := { Level := some { Title := none } }

/-! ## Claims about the scoring rule -/

/-- C1: for every station record given to `recommend_stations`, the
distance component of its score is +10 when the distance is below 5, +5
when it lies in [5, 10), and +0 when it is at least 10; an absent
`AddressInfo` or `Distance` resolves to the sentinel 999 (hence +0), and
the total score is the sum of the distance, connection and availability
components. -/
theorem c1_distance_component (s : StationRecord) :
    (distOf s < 5 → distancePoints s = 10)
  ∧ (5 ≤ distOf s → distOf s < 10 → distancePoints s = 5)
  ∧ (10 ≤ distOf s → distancePoints s = 0)
  ∧ (s.AddressInfo = none → distOf s = 999)
  ∧ (∀ a, s.AddressInfo = some a → a.Distance = none → distOf s = 999)
  ∧ scoreStation s = distancePoints s + connectionPoints s + availabilityPoints s := by
  refine ⟨?_, ?_, ?_, ?_, ?_, rfl⟩
  · intro h
    simp [distancePoints, h]
  · intro h1 h2
    simp [distancePoints, not_lt.mpr h1, h2]
  · intro h
    have h5 : ¬ distOf s < 5 := not_lt.mpr (le_trans (by norm_num) h)
    have h10 : ¬ distOf s < 10 := not_lt.mpr h
    simp [distancePoints, h5, h10]
  · intro h
    simp [distOf, h]
  · intro a ha hd
    simp [distOf, ha, hd]

/-- Witness for C1 at the concrete station with distance 3. -/
theorem c1_distance_component_witness :
    distOf exStationA < 5 ∧ distancePoints exStationA = 10 :=
  ⟨by decide, (c1_distance_component exStationA).1 (by decide)⟩

/-- The connection-loop total is eight points per matching connection. -/
lemma connectionPoints_eq_count (conns : List Connection) :
    (conns.map connPoints).sum = 8 * conns.countP hasFast := by
  induction conns with
  | nil => simp
  | cons c t ih =>
    by_cases h : hasFast c <;>
      simp [connPoints, h, List.countP_cons, ih] <;> omega

/-- C2: each connection whose `Level.Title` contains the case-sensitive
substring `"Fast"` contributes exactly +8, the contributions accumulate
without cap (the total is eight times the number of matching
connections), and a connection with an absent `Level` or absent `Title`
contributes 0. -/
theorem c2_fast_connections (s : StationRecord) :
    connectionPoints s = 8 * ((connectionsOf s).countP hasFast)
  ∧ (∀ conn, hasFast conn = true → connPoints conn = 8)
  ∧ (∀ conn, conn.Level = none → connPoints conn = 0)
  ∧ (∀ conn lv, conn.Level = some lv → lv.Title = none → connPoints conn = 0) := by
  refine ⟨connectionPoints_eq_count _, ?_, ?_, ?_⟩
  · intro conn h
    simp [connPoints, h]
  · intro conn h
    simp [connPoints, hasFast, h]
  · intro conn lv h ht
    simp [connPoints, hasFast, h, ht, strContains, charsContain, charsStartWith]

/-- Witness for C2 at concrete connections with and without a match. -/
theorem c2_fast_connections_witness :
    connPoints exConnNoLevel = 0 :=
  (c2_fast_connections exStationEmpty).2.2.1 exConnNoLevel rfl

/-- C3: two station records identical except for the
`StatusType.IsOperational` flag differ by exactly five points: the
record with the flag true scores 5 more than the record with the flag
false, with the flag absent, or with no `StatusType` at all. -/
theorem c3_operational_bonus (s : StationRecord) (t : Option String) :
    (scoreOne { s with StatusType := some { Title := t, IsOperational := some true } }).score
      = (scoreOne { s with StatusType := some { Title := t, IsOperational := some false } }).score + 5
  ∧ (scoreOne { s with StatusType := some { Title := t, IsOperational := some true } }).score
      = (scoreOne { s with StatusType := some { Title := t, IsOperational := none } }).score + 5
  ∧ (scoreOne { s with StatusType := some { Title := t, IsOperational := some true } }).score
      = (scoreOne { s with StatusType := none }).score + 5 := by
  refine ⟨?_, ?_, ?_⟩ <;>
    simp [scoreOne, scoreStation, availabilityPoints, isOperationalOf, distancePoints,
      distOf, connectionPoints, connectionsOf]

/-! ## Stability of the sort -/

/-- Filtering the entries with one given score commutes with an ordered
insertion: the inserted element lands in front of the equal-score
entries already present, because `orderedInsert` skips only entries of
strictly larger score. -/
lemma filter_orderedInsert (n : Nat) (x : ScoredStation) (l : List ScoredStation) :
    (List.orderedInsert scoreGE x l).filter (fun e => e.score == n)
      = if x.score == n
          then x :: l.filter (fun e => e.score == n)
          else l.filter (fun e => e.score == n) := by
  induction l with
  | nil =>
    by_cases h : x.score == n <;> simp [List.orderedInsert, h]
  | cons b t ih =>
    by_cases hle : scoreGE x b
    · by_cases h : x.score == n <;>
        simp [List.orderedInsert, hle, List.filter_cons, h]
    · have hbx : x.score < b.score := Nat.not_le.mp hle
      by_cases hx : x.score == n
      · have hxn : x.score = n := beq_iff_eq.mp hx
        have hb : (b.score == n) = false := by
          simp only [beq_eq_false_iff_ne, ne_eq]
          omega
        simp [List.orderedInsert, hle, List.filter_cons, hb, ih, hx]
      · simp [List.orderedInsert, hle, List.filter_cons, ih, hx]

/-- Filtering the entries with one given score commutes with the whole
stable sort. -/
lemma filter_insertionSort (n : Nat) (l : List ScoredStation) :
    (List.insertionSort scoreGE l).filter (fun e => e.score == n)
      = l.filter (fun e => e.score == n) := by
  induction l with
  | nil => rfl
  | cons x t ih =>
    rw [List.insertionSort, filter_orderedInsert, ih]
    by_cases h : x.score == n <;> simp [List.filter_cons, h]

/-- C4: the list returned by `recommend_stations` is sorted by score in
descending order, and for every score value the entries holding it
appear in the same relative order as the corresponding records of the
input (the sort is stable). -/
theorem c4_sorted_and_stable (stations : List StationRecord) (preferred_type : String) :
    List.Pairwise (fun a b => b.score ≤ a.score) (recommend_stations stations preferred_type)
  ∧ ∀ n : Nat, (recommend_stations stations preferred_type).filter (fun e => e.score == n)
      = (stations.map scoreOne).filter (fun e => e.score == n) := by
  constructor
  · exact List.sorted_insertionSort scoreGE (stations.map scoreOne)
  · intro n
    exact filter_insertionSort n (stations.map scoreOne)

/-! ## The context block -/

/-- Concatenation of a list of strings, left to right. -/
def concatAll : List String → String
  | [] => ""
  | s :: t => s ++ concatAll t

/-- The accumulating `context +=` loop is the initial string followed by
the concatenation of the appended pieces. -/
lemma foldl_append_eq_concatAll {α : Type} (f : α → String) (l : List α) (init : String) :
    l.foldl (fun ctx p => ctx ++ f p) init = init ++ concatAll (l.map f) := by
  induction l generalizing init with
  | nil => simp [concatAll, String.append_empty]
  | cons p t ih =>
    simp [concatAll, List.foldl_cons, ih, String.append_assoc]

/-- C5 counterexample: on a one-element ranked list the code emits a
header line before the station lines, so the context is not only the
min(topN, length) one-per-station lines that the claim describes. -/
theorem c5_counterexample :
    buildContext [scoreOne exStationA] ≠ buildContext_spec [scoreOne exStationA] := by
  decide

/-- C5 (amended): the context is empty when the ranked list is empty;
for a non-empty ranked list it is the header line
`"Top 3 recommended stations:"` followed by exactly min(3, length)
lines, the i-th built by `lineFor` from the 1-based index i and the
i-th ranked entry. -/
theorem c5_context_structure (ranked : List ScoredStation) :
    (ranked = [] → buildContext ranked = "")
  ∧ (ranked ≠ [] →
      buildContext ranked
        = "Top 3 recommended stations:\n"
            ++ concatAll (((ranked.take 3).enumFrom 1).map (fun p => lineFor p.1 p.2))
      ∧ (((ranked.take 3).enumFrom 1).map (fun p => lineFor p.1 p.2)).length
          = min 3 ranked.length
      ∧ ((ranked.take 3).enumFrom 1).map Prod.fst = List.range' 1 (min 3 ranked.length)) := by
  constructor
  · intro h
    simp [buildContext, h]
  · intro h
    have hne : ¬ (ranked.isEmpty = true) := by
      cases ranked with
      | nil => exact absurd rfl h
      | cons a t => simp
    refine ⟨?_, ?_, ?_⟩
    · rw [buildContext, if_neg hne, foldl_append_eq_concatAll]
    · simp [List.length_map, List.enumFrom_length, List.length_take]
    · rw [List.enumFrom_map_fst, List.length_take]

/-- Witness for C5 (amended) at a concrete one-element ranked list. -/
theorem c5_context_structure_witness :
    buildContext [scoreOne exStationA]
      = "Top 3 recommended stations:\n"
          ++ concatAll ((([scoreOne exStationA].take 3).enumFrom 1).map
              (fun p => lineFor p.1 p.2))
  ∧ ((([scoreOne exStationA].take 3).enumFrom 1).map (fun p => lineFor p.1 p.2)).length
      = min 3 [scoreOne exStationA].length
  ∧ (([scoreOne exStationA].take 3).enumFrom 1).map Prod.fst
      = List.range' 1 (min 3 [scoreOne exStationA].length) :=
  (c5_context_structure [scoreOne exStationA]).2 (by simp)

/-! ## Fetch and chat error handling -/

/-- C6: whenever the directory-service call completes with a status code
other than 200, `get_charging_stations` returns the empty list; the
function is total, so nothing is raised to the caller. -/
theorem c6_non200_empty (status : Nat) (body : List StationRecord) (h : status ≠ 200) :
    get_charging_stations (FetchOutcome.resp status body) = [] := by
  simp [get_charging_stations, h]

/-- Witness for C6 at the concrete status 404. -/
theorem c6_non200_empty_witness :
    get_charging_stations (FetchOutcome.resp 404 [exStationA]) = [] :=
  c6_non200_empty 404 [exStationA] (by decide)

/-- An endpoint whose call always raises. -/
def exFailingCall : ChatRequest → Except String ChatResponse :=
  fun _ => Except.error "boom"

/-- C7: when the completion call raises, `chat_with_openai` returns the
apology string carrying the description instead of propagating the
exception; when the call succeeds with a non-empty `choices` list it
returns the text content of the first reply. -/
theorem c7_chat_error_string (call : ChatRequest → Except String ChatResponse)
    (user_message context : String) :
    (∀ e, call (requestFor user_message context) = Except.error e →
        chat_with_openai call user_message context = "Sorry, I encountered an error: " ++ e)
  ∧ (∀ r c rest, call (requestFor user_message context) = Except.ok r →
        r.choices = c :: rest →
        chat_with_openai call user_message context = c.message.content) := by
  constructor
  · intro e h
    simp [chat_with_openai, h]
  · intro r c rest h hc
    simp [chat_with_openai, h, hc]

/-- Witness for C7: the scenario of §8, a failing endpoint answering a
question with the apology string. -/
theorem c7_chat_error_string_witness :
    chat_with_openai exFailingCall "What is CCS?" "" = "Sorry, I encountered an error: boom" :=
  (c7_chat_error_string exFailingCall "What is CCS?" "").1 "boom" rfl

/-- C8: `recommend_stations` never reads `preferred_type`; any two values
of the argument yield identical output on every station list. -/
theorem c8_preferred_type_unused (stations : List StationRecord) (t1 t2 : String) :
    recommend_stations stations t1 = recommend_stations stations t2 := rfl

/-! ## Absence of fields never raises and only lowers the score -/

/-- C9: every absent field resolves to its default (distance 999,
connections empty, operational flag falsy, title "Unknown"); the fully
absent record scores 0, and erasing any of the three top-level fields
never increases the score.  All scoring and formatting functions are
total, so absence never raises. -/
theorem c9_absence_defaults (s : StationRecord) :
    (s.AddressInfo = none → distOf s = 999 ∧ distancePoints s = 0 ∧ titleOf s = "Unknown")
  ∧ (∀ a, s.AddressInfo = some a → a.Distance = none → distOf s = 999 ∧ distancePoints s = 0)
  ∧ (∀ a, s.AddressInfo = some a → a.Title = none → titleOf s = "Unknown")
  ∧ (s.Connections = none → connectionsOf s = [] ∧ connectionPoints s = 0)
  ∧ (s.StatusType = none → isOperationalOf s = false ∧ availabilityPoints s = 0)
  ∧ (∀ st, s.StatusType = some st → st.IsOperational = none →
        isOperationalOf s = false ∧ availabilityPoints s = 0)
  ∧ scoreStation exStationEmpty = 0
  ∧ scoreStation { s with StatusType := none } ≤ scoreStation s
  ∧ scoreStation { s with Connections := none } ≤ scoreStation s
  ∧ scoreStation { s with AddressInfo := none } ≤ scoreStation s := by
  refine ⟨?_, ?_, ?_, ?_, ?_, ?_, by decide, ?_, ?_, ?_⟩
  · intro h
    refine ⟨by simp [distOf, h], by norm_num [distancePoints, distOf, h], by simp [titleOf, h]⟩
  · intro a ha hd
    refine ⟨by simp [distOf, ha, hd], by norm_num [distancePoints, distOf, ha, hd]⟩
  · intro a ha ht
    simp [titleOf, ha, ht]
  · intro h
    refine ⟨by simp [connectionsOf, h], by simp [connectionPoints, connectionsOf, h]⟩
  · intro h
    refine ⟨by simp [isOperationalOf, h], by simp [availabilityPoints, isOperationalOf, h]⟩
  · intro st hst hop
    refine ⟨by simp [isOperationalOf, hst, hop], by simp [availabilityPoints, isOperationalOf, hst, hop]⟩
  · have ha : availabilityPoints { s with StatusType := none } = 0 := by
      simp [availabilityPoints, isOperationalOf]
    have hd : distancePoints { s with StatusType := none } = distancePoints s := rfl
    have hc : connectionPoints { s with StatusType := none } = connectionPoints s := rfl
    simp only [scoreStation, ha, hd, hc]
    omega
  · have hc : connectionPoints { s with Connections := none } = 0 := by
      simp [connectionPoints, connectionsOf]
    have hd : distancePoints { s with Connections := none } = distancePoints s := rfl
    have ha : availabilityPoints { s with Connections := none } = availabilityPoints s := rfl
    simp only [scoreStation, hc, hd, ha]
    omega
  · have hd : distancePoints { s with AddressInfo := none } = 0 := by
      norm_num [distancePoints, distOf]
    have hc : connectionPoints { s with AddressInfo := none } = connectionPoints s := rfl
    have ha : availabilityPoints { s with AddressInfo := none } = availabilityPoints s := rfl
    simp only [scoreStation, hd, hc, ha]
    omega

/-- Witness for C9 at the record with every field absent. -/
theorem c9_absence_defaults_witness :
    distOf exStationEmpty = 999 ∧ distancePoints exStationEmpty = 0
  ∧ titleOf exStationEmpty = "Unknown" :=
  (c9_absence_defaults exStationEmpty).1 rfl

/-! ## The output is the scored input, nothing more and nothing less -/

/-- C10: `recommend_stations` returns exactly one entry per input record:
the output has the length of the input, is a permutation of the list of
per-record scored entries, and every output entry carries its input
record unchanged together with the score and distance computed from that
record. -/
theorem c10_output_permutation (stations : List StationRecord) (preferred_type : String) :
    (recommend_stations stations preferred_type).length = stations.length
  ∧ (recommend_stations stations preferred_type).Perm (stations.map scoreOne)
  ∧ ∀ e ∈ recommend_stations stations preferred_type,
      e.station ∈ stations ∧ e.score = scoreStation e.station ∧ e.distance = distOf e.station := by
  have hperm : (recommend_stations stations preferred_type).Perm (stations.map scoreOne) :=
    List.perm_insertionSort scoreGE (stations.map scoreOne)
  refine ⟨?_, hperm, ?_⟩
  · rw [hperm.length_eq, List.length_map]
  · intro e he
    have hm : e ∈ stations.map scoreOne := hperm.mem_iff.mp he
    obtain ⟨s0, hs0, he0⟩ := List.mem_map.mp hm
    cases he0
    exact ⟨hs0, rfl, rfl⟩

/-- Witness for C10 at a concrete one-element input list. -/
theorem c10_output_permutation_witness :
    scoreOne exStationA ∈ recommend_stations [exStationA] "Fast"
  ∧ (scoreOne exStationA).station ∈ [exStationA]
  ∧ (scoreOne exStationA).score = scoreStation (scoreOne exStationA).station
  ∧ (scoreOne exStationA).distance = distOf (scoreOne exStationA).station := by
  have hm : scoreOne exStationA ∈ recommend_stations [exStationA] "Fast" := by decide
  exact ⟨hm, (c10_output_permutation [exStationA] "Fast").2.2 (scoreOne exStationA) hm⟩

end EVCharging
